import Mathlib

/-!
Verification of the request/response normalization layer of the
bpi-may-interns repository (React/TypeScript front end).

The development shallowly embeds, from the source:
  * `JSON.parse` on JSON texts (RFC 8259 grammar, as used by the browser),
    as the executable `jsonParse`;
  * the helper `parseJsonSafely` of the audio-insights component
    (src/unnamed/part_002, lines 159-168);
  * the `handleSubmit` normalization pass over the three optionally
    stringified insight fields (part_002, lines 84-95), including the
    shallow-copy/aliasing semantics of `{ ...res.data }`;
  * `parseJsonFields` of TextInsights.tsx (lines 66-77);
  * the error-classification `catch` blocks (TextInsights.tsx 102-118,
    AudioDiarization.tsx 85-104);
  * the submit-trace shape of TextInsights `handleSubmit` (79-122) and
    its submit button's `disabled` predicate (line 215);
  * `handleFileChange` of AudioDiarization.tsx (lines 31-58).

JavaScript values relevant to the payloads are modelled by `JsValue`.
Numbers are kept as their source literals: no claim below depends on
numeric arithmetic, and IEEE-754 float semantics are outside the
embedding; `obj` keeps members in source order (no payload in the claims
has duplicate keys).
-/

/-- A JavaScript value as produced by `JSON.parse` (and, for the payload
fields, as delivered by the backend). -/
inductive JsValue where
  | null : JsValue
  | bool : Bool → JsValue
  | num : String → JsValue
  | str : String → JsValue
  | arr : List JsValue → JsValue
  | obj : List (String × JsValue) → JsValue
deriving Repr

/-- JSON whitespace (RFC 8259 §2): space, tab, line feed, carriage return. -/
def isJsonWs (c : Char) : Bool :=
  c = ' ' || c = '\t' || c = '\n' || c = '\r'

/-- Drop leading JSON whitespace. -/
def skipWs : List Char → List Char
  | c :: cs => if isJsonWs c then skipWs cs else c :: cs
  | [] => []

/-- Value of a hex digit, if any (for `\uXXXX` escapes). -/
def hexVal? (c : Char) : Option Nat :=
  if '0' ≤ c ∧ c ≤ '9' then some (c.toNat - '0'.toNat)
  else if 'a' ≤ c ∧ c ≤ 'f' then some (c.toNat - 'a'.toNat + 10)
  else if 'A' ≤ c ∧ c ≤ 'F' then some (c.toNat - 'A'.toNat + 10)
  else none

/-- Body of a JSON string literal, after the opening quote: returns the
decoded string and the input after the closing quote.  Control characters
below U+0020 must be escaped; the escapes are exactly those of RFC 8259.
(A `\uXXXX` code unit is mapped through `Char.ofNat`; no input in this
development uses surrogate escapes.) -/
def parseStringBody (fuel : Nat) (cs : List Char) : Option (String × List Char) :=
  match fuel with
  | 0 => none
  | fuel + 1 =>
    match cs with
    | [] => none
    | '"' :: rest => some ("", rest)
    | '\\' :: e :: rest =>
      let decoded : Option (Char × List Char) :=
        match e, rest with
        | '"', r => some ('"', r)
        | '\\', r => some ('\\', r)
        | '/', r => some ('/', r)
        | 'b', r => some (Char.ofNat 8, r)
        | 'f', r => some (Char.ofNat 12, r)
        | 'n', r => some ('\n', r)
        | 'r', r => some ('\r', r)
        | 't', r => some ('\t', r)
        | 'u', h1 :: h2 :: h3 :: h4 :: r =>
          match hexVal? h1, hexVal? h2, hexVal? h3, hexVal? h4 with
          | some a, some b, some c, some d =>
            some (Char.ofNat (((a * 16 + b) * 16 + c) * 16 + d), r)
          | _, _, _, _ => none
        | _, _ => none
      match decoded with
      | some (c, r) =>
        match parseStringBody fuel r with
        | some (s, r2) => some (⟨c :: s.data⟩, r2)
        | none => none
      | none => none
    | c :: rest =>
      if c.toNat < 32 then none
      else
        match parseStringBody fuel rest with
        | some (s, r2) => some (⟨c :: s.data⟩, r2)
        | none => none

/-- Longest prefix of decimal digits. -/
def takeDigits : List Char → List Char × List Char
  | c :: cs =>
    if c.isDigit then
      let (d, r) := takeDigits cs
      (c :: d, r)
    else ([], c :: cs)
  | [] => ([], [])

/-- A JSON number literal: `-? int frac? exp?` (RFC 8259 §6).  Returns the
literal's characters and the rest of the input. -/
def parseNumber (cs : List Char) : Option (List Char × List Char) :=
  let (negPart, cs1) :=
    match cs with
    | '-' :: r => ([ '-' ], r)
    | _ => (([] : List Char), cs)
  let intPart : Option (List Char × List Char) :=
    match cs1 with
    | '0' :: r => some (['0'], r)
    | c :: r =>
      if c.isDigit then
        let (d, r2) := takeDigits r
        some (c :: d, r2)
      else none
    | [] => none
  match intPart with
  | none => none
  | some (ip, cs2) =>
    let fracPart : Option (List Char × List Char) :=
      match cs2 with
      | '.' :: r =>
        match takeDigits r with
        | ([], _) => none
        | (d, r2) => some ('.' :: d, r2)
      | _ => some (([] : List Char), cs2)
    match fracPart with
    | none => none
    | some (fp, cs3) =>
      let expPart : Option (List Char × List Char) :=
        match cs3 with
        | e :: r =>
          if e = 'e' ∨ e = 'E' then
            let (sign, r1) :=
              match r with
              | s :: r2 => if s = '+' ∨ s = '-' then ([s], r2) else (([] : List Char), r)
              | [] => (([] : List Char), r)
            match takeDigits r1 with
            | ([], _) => none
            | (d, r2) => some (e :: (sign ++ d), r2)
          else some (([] : List Char), cs3)
        | [] => some (([] : List Char), cs3)
      match expPart with
      | none => none
      | some (ep, cs4) => some (negPart ++ ip ++ fp ++ ep, cs4)

mutual

/-- A JSON value, leading whitespace allowed (the recursive core of
`JSON.parse`).  `fuel` only bounds recursion depth; `jsonParse` supplies
enough for any input of the given length. -/
def parseVal : Nat → List Char → Option (JsValue × List Char)
  | 0, _ => none
  | fuel + 1, cs =>
    match skipWs cs with
    | 'n' :: 'u' :: 'l' :: 'l' :: r => some (.null, r)
    | 't' :: 'r' :: 'u' :: 'e' :: r => some (.bool true, r)
    | 'f' :: 'a' :: 'l' :: 's' :: 'e' :: r => some (.bool false, r)
    | '"' :: r =>
      match parseStringBody (r.length + 1) r with
      | some (s, r2) => some (.str s, r2)
      | none => none
    | '[' :: r =>
      match skipWs r with
      | ']' :: r2 => some (.arr [], r2)
      | r2 =>
        match parseElems fuel r2 with
        | some (vs, r3) => some (.arr vs, r3)
        | none => none
    | '{' :: r =>
      match skipWs r with
      | '}' :: r2 => some (.obj [], r2)
      | r2 =>
        match parseMembers fuel r2 with
        | some (ms, r3) => some (.obj ms, r3)
        | none => none
    | cs' =>
      match parseNumber cs' with
      | some (lit, r) => some (.num ⟨lit⟩, r)
      | none => none

/-- Comma-separated array elements up to and including `]`. -/
def parseElems : Nat → List Char → Option (List JsValue × List Char)
  | 0, _ => none
  | fuel + 1, cs =>
    match parseVal fuel cs with
    | none => none
    | some (v, r) =>
      match skipWs r with
      | ',' :: r2 =>
        match parseElems fuel r2 with
        | some (vs, r3) => some (v :: vs, r3)
        | none => none
      | ']' :: r2 => some ([v], r2)
      | _ => none

/-- Comma-separated object members up to and including `\x7d`. -/
def parseMembers : Nat → List Char → Option (List (String × JsValue) × List Char)
  | 0, _ => none
  | fuel + 1, cs =>
    match skipWs cs with
    | '"' :: r =>
      match parseStringBody (r.length + 1) r with
      | none => none
      | some (k, r1) =>
        match skipWs r1 with
        | ':' :: r2 =>
          match parseVal fuel r2 with
          | none => none
          | some (v, r3) =>
            match skipWs r3 with
            | ',' :: r4 =>
              match parseMembers fuel r4 with
              | some (ms, r5) => some ((k, v) :: ms, r5)
              | none => none
            | '}' :: r4 => some ([(k, v)], r4)
            | _ => none
        | _ => none
    | _ => none

end

/-- The embedding of `JSON.parse`: `some v` when the whole text is a valid
JSON text (surrounding whitespace allowed), `none` when `JSON.parse`
throws.  Fuel `4 * length + 4` is ample: every two recursion steps consume
at least one input character. -/
def jsonParse (s : String) : Option JsValue :=
  match parseVal (4 * s.length + 4) s.data with
  | some (v, rest) =>
    match skipWs rest with
    | [] => some v
    | _ => none
  | none => none

/-- `parseJsonSafely` (src/unnamed/part_002, lines 159-168): on a string,
try `JSON.parse`, returning the original string when parsing fails; on a
non-string, return the value unchanged.  The `try/catch` of the source is
total here: `jsonParse` returns `none` exactly where `JSON.parse` throws,
so no error can escape. -/
def parseJsonSafely (value : JsValue) : JsValue :=
  match value with
  | .str s =>
    match jsonParse s with
    | some j => j
    | none => value
  | _ => value

/-! ## The insights payload of the audio components (src/unnamed/part_002)

The `GeminiResult.insights` object has seven fields, each possibly absent
(`none` models JavaScript `undefined`); `case_priority_level`, `sentiment`
and `dialogue_history` may arrive as JSON-encoded strings. -/

/-- The `insights` object of a `GeminiResult` (part_002, lines 8-16). -/
structure InsightsObj where
  case_transaction_type : Option JsValue := none
  case_priority_level : Option JsValue := none
  case_type : Option JsValue := none
  sentiment : Option JsValue := none
  summary : Option JsValue := none
  keywords : Option JsValue := none
  dialogue_history : Option JsValue := none
deriving Repr

/-- `typeof v === 'string'` on a possibly-absent field. -/
def isStringField : Option JsValue → Bool
  | some (.str _) => true
  | _ => false

/-- One guarded assignment of the normalization pass (part_002, e.g. lines
86-88): `if (typeof x === 'string') x = parseJsonSafely(x)`. -/
def normField : Option JsValue → Option JsValue
  | some (.str s) => some (parseJsonSafely (.str s))
  | v => v

/-- The full normalization pass of `handleSubmit` (part_002, lines 85-95)
as a pure function on an insights object: the three optionally-stringified
fields each get one guarded parse; nothing else is touched. -/
def normInsights (io : InsightsObj) : InsightsObj :=
  { io with
    case_priority_level := normField io.case_priority_level
    sentiment := normField io.sentiment
    dialogue_history := normField io.dialogue_history }

/-! ## Object-reference semantics of the success path (part_002, 84-96)

`const processedResult: GeminiResult = { ...res.data }` is a *shallow*
copy: `processedResult.insights` and `res.data.insights` are the same
heap object.  To settle what `setResult(res.data)` stores, the heap is
made explicit: insights objects live in a store addressed by `Nat`, and a
result record holds an (optional) address, not the object itself. -/

/-- The top-level (non-object) fields of a `GeminiResult`. -/
structure GeminiTop where
  transcription : Option JsValue := none
  translation : Option JsValue := none
  error : Option JsValue := none
deriving Repr

/-- Heap of insights objects; addresses are list indices. -/
def InsightsStore : Type := List InsightsObj

/-- A `GeminiResult` record: top-level fields plus a reference to the
insights object (absent when the response carried no `insights`). -/
structure ResRecord where
  top : GeminiTop
  insightsAddr : Option Nat
deriving Repr

def storeGet (st : InsightsStore) (a : Nat) : Option InsightsObj :=
  List.get? st a

def storeSet (st : InsightsStore) (a : Nat) (io : InsightsObj) : InsightsStore :=
  List.set st a io

/-- An in-place field update through a reference:
`processedResult.insights.<field> = ...` writes to the shared heap cell. -/
def storeUpdate (st : InsightsStore) (a : Nat) (f : InsightsObj → InsightsObj) :
    InsightsStore :=
  match storeGet st a with
  | some io => storeSet st a (f io)
  | none => st

/-- Allocate a fresh response as delivered by axios: a record whose
`insights` reference points at a newly stored object (or is absent). -/
def mkResponse (top : GeminiTop) (ins : Option InsightsObj) :
    InsightsStore × ResRecord :=
  match ins with
  | some io => ([io], { top := top, insightsAddr := some 0 })
  | none => ([], { top := top, insightsAddr := none })

/-- The contents a record denotes under a given heap (what rendering and
`JSON.stringify` observe). -/
def derefContent (st : InsightsStore) (r : ResRecord) :
    GeminiTop × Option InsightsObj :=
  (r.top, Option.bind r.insightsAddr (storeGet st))

/-- Result of the success path: the final heap, the record passed to
`setResult` (`res.data`), and the record `processedResult`. -/
structure AudioSuccessOutcome where
  store : InsightsStore
  stored : ResRecord
  processed : ResRecord

/-- The success path of the audio `handleSubmit` (part_002, lines 84-96):
shallow-copy `res.data`, run the three guarded in-place parses through the
copy's `insights` reference, then `setResult(res.data)`.  Each guarded
write re-reads the heap, exactly as the source's three statements do. -/
def audioHandleSuccess (st : InsightsStore) (resData : ResRecord) :
    AudioSuccessOutcome :=
  let processedResult : ResRecord :=
    { top := resData.top, insightsAddr := resData.insightsAddr }
  match processedResult.insightsAddr with
  | some a =>
    let st1 := storeUpdate st a
      (fun io => { io with case_priority_level := normField io.case_priority_level })
    let st2 := storeUpdate st1 a
      (fun io => { io with sentiment := normField io.sentiment })
    let st3 := storeUpdate st2 a
      (fun io => { io with dialogue_history := normField io.dialogue_history })
    { store := st3, stored := resData, processed := processedResult }
  | none => { store := st, stored := resData, processed := processedResult }

/-! ## `parseJsonFields` of TextInsights.tsx (lines 66-77)

All three `JSON.parse` calls sit in one `try` block; the first failure
jumps to the `catch`, which resets the whole parsed state to nulls. -/

/-- The response of `POST /text` (TextInsights.tsx, lines 5-14): the three
insight fields are strings at this boundary. -/
structure TextInsightResult where
  case_transaction_type : String := ""
  case_priority_level : String := ""
  case_type : String := ""
  sentiment : String := ""
  summary : String := ""
  keywords : String := ""
  dialogue_history : String := ""
deriving Repr

/-- The `parsedResult` component state (TextInsights.tsx, lines 53-57). -/
structure ParsedInsightState where
  priority : Option JsValue
  sentiment : Option JsValue
  dialogue : Option JsValue
deriving Repr

/-- `parseJsonFields` (TextInsights.tsx, lines 66-77): parse the three
fields in order inside a single `try`; any `JSON.parse` throw lands in the
`catch`, which stores `{ priority: null, sentiment: null, dialogue: null }`. -/
def parseJsonFields (result : TextInsightResult) : ParsedInsightState :=
  match jsonParse result.case_priority_level with
  | none => ⟨none, none, none⟩
  | some priority =>
    match jsonParse result.sentiment with
    | none => ⟨none, none, none⟩
    | some sentiment =>
      match jsonParse result.dialogue_history with
      | none => ⟨none, none, none⟩
      | some dialogue => ⟨some priority, some sentiment, some dialogue⟩

/-! ## Error classification (TextInsights.tsx 102-118, AudioDiarization.tsx
85-104, part_002 97-113)

The `catch` blocks are identical up to the final message prefix: test
`axiosError.response`, else `axiosError.request`, else the local error. -/

/-- The parts of `axiosError.response` the classifier reads:
`response.data?.detail` (absent when the body is missing/unstructured or
has no `detail`) and `response.statusText`. -/
structure HttpResponseModel where
  dataDetail : Option String
  statusText : String
deriving Repr

/-- The parts of an `AxiosError` the classifier reads: `response` (set iff
an HTTP response arrived), `request` truthiness (the request was
dispatched), and `message`. -/
structure AxiosErrorModel where
  response : Option HttpResponseModel
  hasRequest : Bool
  message : String
deriving Repr

/-- The network-error message shared verbatim by every component. -/
def networkErrorMsg : String :=
  "Network error: Unable to connect to server. Please check if the backend is running."

/-- `axiosError.response.data?.detail || axiosError.response.statusText`:
JavaScript `||` also rejects an empty-string detail as falsy. -/
def detailOrStatusText (r : HttpResponseModel) : String :=
  match r.dataDetail with
  | some d => if d = "" then r.statusText else d
  | none => r.statusText

/-- The shared `catch`-block classifier; `clientPrefix` is
`"Analysis failed: "` in TextInsights and `"Upload failed: "` in the audio
components. -/
def classifyError (clientPrefix : String) (e : AxiosErrorModel) : String :=
  match e.response with
  | some r => "Server error: " ++ detailOrStatusText r
  | none =>
    if e.hasRequest then networkErrorMsg
    else clientPrefix ++ e.message

/-- Modelled from the spec: how axios presents each failure of a dispatched
call (axios itself is an external dependency, not part of this repository).
Per §7, a non-2xx reply carries `response`; a request that was sent but got
no reply — connectivity failure or the configured timeout elapsing — has
`request` set but no `response`; a pre-dispatch local failure has neither. -/
inductive FailureCause where
  | serverResponded (dataDetail : Option String) (statusText : String)
  | requestTimedOut (message : String)
  | networkDown (message : String)
  | clientSide (message : String)

/-- Modelled from the spec: the `AxiosError` shape of each failure cause
(§7 taxonomy; "the request was sent but no response arrived (connectivity
failure, backend down)", including timeout per §8). -/
def axiosErrorOf : FailureCause → AxiosErrorModel
  | .serverResponded d st => { response := some ⟨d, st⟩, hasRequest := true, message := "" }
  | .requestTimedOut m => { response := none, hasRequest := true, message := m }
  | .networkDown m => { response := none, hasRequest := true, message := m }
  | .clientSide m => { response := none, hasRequest := false, message := m }

/-! ## The submit trace of TextInsights `handleSubmit` (lines 79-122) -/

/-- Observable steps of one `handleSubmit` run, in program order. -/
inductive UiEvent where
  | setErrorEv (msg : String)
  | setLoadingEv (b : Bool)
  | postRequest
  | setResultEv
  | parseFieldsEv
deriving Repr, DecidableEq

/-- How the single awaited POST settles. -/
inductive RequestOutcome where
  | success
  | failure (cause : FailureCause)

/-- The event sequence of one TextInsights `handleSubmit` run (lines
79-122): guard on empty trimmed text; otherwise clear the error, raise
`loading`, issue the one POST, handle its outcome, and drop `loading` in
the `finally`.  There is no loop and no second `axios.post` call. -/
def textSubmitTrace (text : String) (outcome : RequestOutcome) : List UiEvent :=
  if text.trim = "" then
    [.setErrorEv "Please enter some text to analyze."]
  else
    [.setErrorEv "", .setLoadingEv true, .postRequest] ++
      (match outcome with
       | .success => [.setResultEv, .parseFieldsEv]
       | .failure c =>
         [.setErrorEv (classifyError "Analysis failed: " (axiosErrorOf c))]) ++
      [.setLoadingEv false]

/-- Number of POST dispatches in a trace. -/
def countPosts : List UiEvent → Nat
  | [] => 0
  | .postRequest :: rest => countPosts rest + 1
  | _ :: rest => countPosts rest

/-- The `loading` flag after replaying a trace from flag value `l`. -/
def loadingAfter (l : Bool) : List UiEvent → Bool
  | [] => l
  | .setLoadingEv b :: rest => loadingAfter b rest
  | _ :: rest => loadingAfter l rest

/-- `true` iff some POST in the trace is dispatched while `loading` is
`false` (replaying from flag value `l`). -/
def postOutsideLoading (l : Bool) : List UiEvent → Bool
  | [] => false
  | .postRequest :: rest => if l then postOutsideLoading l rest else true
  | .setLoadingEv b :: rest => postOutsideLoading b rest
  | _ :: rest => postOutsideLoading l rest

/-- The submit button's `disabled` expression (TextInsights.tsx line 215):
`loading || !text.trim()`. -/
def submitDisabled (loading : Bool) (text : String) : Bool :=
  loading || text.trim = ""

/-! ## AudioDiarization state (AudioDiarization.tsx) -/

/-- The fields of a browser `File` that the component reads. -/
structure JsFile where
  name : String
  type : String
  size : Nat
deriving Repr, DecidableEq

/-- The component state of `AudioDiarization` (lines 21-28).  `duration`
and `currentTime` are kept abstract as integers; no claim computes with
them. -/
structure DiarizationState where
  file : Option JsFile := none
  loading : Bool := false
  error : String := ""
  result : Option JsValue := none
  audioUrl : String := ""
  isPlaying : Bool := false
  duration : Int := 0
  currentTime : Int := 0
deriving Repr

/-- `p` is a prefix of `s`, character by character. -/
def charsStartWith : List Char → List Char → Bool
  | _, [] => true
  | [], _ :: _ => false
  | c :: cs, d :: ds => c = d && charsStartWith cs ds

/-- JavaScript `s.startsWith(p)` (an executable transliteration; the
core-library `String` version does not evaluate inside the kernel). -/
def strStartsWith (s p : String) : Bool :=
  charsStartWith s.data p.data

/-- 100 MB, the audio size bound (AudioDiarization.tsx line 42). -/
def maxAudioSize : Nat := 100 * 1024 * 1024

/-- Model of `URL.createObjectURL`: some URL derived from the file; only
the accepted branch stores it, and no claim inspects its contents. -/
def createObjectURL (f : JsFile) : String := "blob:" ++ f.name

/-- `handleFileChange` (AudioDiarization.tsx, lines 31-58): empty file
list is a no-op; a non-`audio/*` MIME type or an over-100MB size only sets
the error message and returns; an accepted file replaces the selection,
clears error and result, installs a preview URL, and resets the playback
position and playing flag.  (`duration` is not assigned anywhere here.) -/
def handleFileChange (st : DiarizationState) (files : List JsFile) :
    DiarizationState :=
  match files with
  | [] => st
  | f :: _ =>
    if ¬ (strStartsWith f.type "audio/") then
      { st with error := "Please select a valid audio file (WAV, MP3, etc.)" }
    else if f.size > maxAudioSize then
      { st with error := "File size must be less than 100MB" }
    else
      { st with
        file := some f
        error := ""
        result := none
        audioUrl := createObjectURL f
        currentTime := 0
        isPlaying := false }

/-- Observable steps of one diarization `handleSubmit` run. -/
inductive DiarEvent where
  | setErrorDv (msg : String)
  | setLoadingDv (b : Bool)
  | postFile (f : JsFile)
  | setResultDv
deriving Repr, DecidableEq

/-- The event sequence of one diarization `handleSubmit` run (lines
60-105): guard on a missing file; otherwise the single POST carries
exactly the `file` from component state. -/
def diarSubmitTrace (st : DiarizationState) (outcome : RequestOutcome) :
    List DiarEvent :=
  match st.file with
  | none => [.setErrorDv "Please select an audio file first."]
  | some f =>
    [.setErrorDv "", .setLoadingDv true, .postFile f] ++
      (match outcome with
       | .success => [.setResultDv]
       | .failure c =>
         [.setErrorDv (classifyError "Upload failed: " (axiosErrorOf c))]) ++
      [.setLoadingDv false]

/-- `typeof v === 'string'` on a present value. -/
def isStr : JsValue → Bool
  | .str _ => true
  | _ => false

/-- A field that is a JSON-encoded string whose decoded value is again a
string that itself parses as JSON — the one shape on which a second
normalization pass makes further progress. -/
def doubleEncoded (v : Option JsValue) : Bool :=
  match v with
  | some (.str s) =>
    match jsonParse s with
    | some (.str t) => (jsonParse t).isSome
    | _ => false
  | _ => false

/-- The concrete response of the C6 counterexample: a payload whose
`sentiment` field arrives as the JSON-encoded string `[1]`. -/
def c6Insights : InsightsObj := { sentiment := some (.str "[1]") }

/-- The success path run on that response. -/
def c6Out : AudioSuccessOutcome :=
  audioHandleSuccess (mkResponse {} (some c6Insights)).1
    (mkResponse {} (some c6Insights)).2

/-! ## Shared lemmas -/

lemma parseJsonSafely_of_parse {s : String} {j : JsValue}
    (h : jsonParse s = some j) : parseJsonSafely (.str s) = j := by
  simp [parseJsonSafely, h]

lemma parseJsonSafely_of_fail {s : String}
    (h : jsonParse s = none) : parseJsonSafely (.str s) = .str s := by
  simp [parseJsonSafely, h]

lemma parseJsonSafely_nonstring (v : JsValue) (h : isStr v = false) :
    parseJsonSafely v = v := by
  cases v <;> simp_all [isStr, parseJsonSafely]

lemma normField_nonstring (v : Option JsValue) (h : isStringField v = false) :
    normField v = v := by
  cases v with
  | none => rfl
  | some x => cases x <;> simp_all [isStringField, normField]

lemma normField_str (s : String) :
    normField (some (.str s)) = some (parseJsonSafely (.str s)) := rfl

lemma normField_idem (v : Option JsValue) (h : doubleEncoded v = false) :
    normField (normField v) = normField v := by
  cases v with
  | none => rfl
  | some x =>
    cases x with
    | str s =>
      rw [normField_str]
      cases hj : jsonParse s with
      | none => rw [parseJsonSafely_of_fail hj, normField_str, parseJsonSafely_of_fail hj]
      | some j =>
        rw [parseJsonSafely_of_parse hj]
        cases j with
        | str t =>
          simp only [doubleEncoded, hj] at h
          cases ht : jsonParse t with
          | none => rw [normField_str, parseJsonSafely_of_fail ht]
          | some u => rw [ht] at h; simp at h
        | null => rfl
        | bool b => rfl
        | num n => rfl
        | arr l => rfl
        | obj l => rfl
    | null => rfl
    | bool b => rfl
    | num n => rfl
    | arr l => rfl
    | obj l => rfl

/-! ## Claims -/

/-- C1: for every field value that is a string containing valid JSON,
`parseJsonSafely` returns the parsed structure equal to `JSON.parse` of
that string, and the `handleSubmit` normalization pass replaces each of
the three optionally-stringified insight fields that is such a string
with its parsed structure. -/
theorem claim_C1 :
    (∀ (s : String) (j : JsValue), jsonParse s = some j →
      parseJsonSafely (.str s) = j)
    ∧ (∀ (io : InsightsObj) (s : String) (j : JsValue),
        io.case_priority_level = some (.str s) → jsonParse s = some j →
        (normInsights io).case_priority_level = some j)
    ∧ (∀ (io : InsightsObj) (s : String) (j : JsValue),
        io.sentiment = some (.str s) → jsonParse s = some j →
        (normInsights io).sentiment = some j)
    ∧ (∀ (io : InsightsObj) (s : String) (j : JsValue),
        io.dialogue_history = some (.str s) → jsonParse s = some j →
        (normInsights io).dialogue_history = some j) := by
  refine ⟨fun s j h => parseJsonSafely_of_parse h,
    fun io s j h1 h2 => ?_, fun io s j h1 h2 => ?_, fun io s j h1 h2 => ?_⟩ <;>
    simp [normInsights, h1, normField_str, parseJsonSafely_of_parse h2]

/-- Witness for C1 at the concrete JSON text `[true]`. -/
theorem claim_C1_witness :
    parseJsonSafely (.str "[true]") = .arr [.bool true]
    ∧ (normInsights { sentiment := some (.str "[true]") }).sentiment
        = some (.arr [.bool true]) :=
  ⟨claim_C1.1 "[true]" _ rfl, claim_C1.2.2.1 _ "[true]" _ rfl rfl⟩

/-- C2: for every non-string field value, normalization returns exactly the
same value (identity law), and the `handleSubmit` pass does not touch a
non-string insight field (nor the four never-normalized fields). -/
theorem claim_C2 :
    (∀ v : JsValue, isStr v = false → parseJsonSafely v = v)
    ∧ (∀ io : InsightsObj, isStringField io.case_priority_level = false →
        (normInsights io).case_priority_level = io.case_priority_level)
    ∧ (∀ io : InsightsObj, isStringField io.sentiment = false →
        (normInsights io).sentiment = io.sentiment)
    ∧ (∀ io : InsightsObj, isStringField io.dialogue_history = false →
        (normInsights io).dialogue_history = io.dialogue_history)
    ∧ (∀ io : InsightsObj,
        (normInsights io).case_transaction_type = io.case_transaction_type
        ∧ (normInsights io).case_type = io.case_type
        ∧ (normInsights io).summary = io.summary
        ∧ (normInsights io).keywords = io.keywords) := by
  refine ⟨fun v h => parseJsonSafely_nonstring v h,
    fun io h => ?_, fun io h => ?_, fun io h => ?_,
    fun io => ⟨rfl, rfl, rfl, rfl⟩⟩ <;>
    simp [normInsights, normField_nonstring _ h]

/-- Witness for C2 at concrete non-string values. -/
theorem claim_C2_witness :
    parseJsonSafely (.num "7") = .num "7"
    ∧ (normInsights { sentiment := some (.arr []) }).sentiment = some (.arr []) :=
  ⟨claim_C2.1 (.num "7") rfl, claim_C2.2.2.1 { sentiment := some (.arr []) } rfl⟩

/-- C3: for every string value that is not valid JSON, `parseJsonSafely`
returns the original string unchanged; the parse failure is swallowed
(`parseJsonSafely` is a total function here — `jsonParse` returns `none`
exactly where `JSON.parse` throws, and no error propagates). -/
theorem claim_C3 (s : String) (h : jsonParse s = none) :
    parseJsonSafely (.str s) = .str s :=
  parseJsonSafely_of_fail h

/-- Witness for C3 at the non-JSON string `High`. -/
theorem claim_C3_witness : parseJsonSafely (.str "High") = .str "High" :=
  claim_C3 "High" rfl

/-- C4 counterexample: normalization is not idempotent.  A field arriving
as the four-character string `"1"` (a JSON-encoded string) parses to the
two-character string `1`, which a second pass parses again, to the number
`1`: applying the pass twice differs from applying it once. -/
theorem claim_C4_counterexample :
    parseJsonSafely (parseJsonSafely (.str "\"1\"")) ≠ parseJsonSafely (.str "\"1\"")
    ∧ normInsights (normInsights { case_priority_level := some (.str "\"1\"") })
        ≠ normInsights { case_priority_level := some (.str "\"1\"") } := by
  constructor
  · intro h
    rw [show parseJsonSafely (.str "\"1\"") = .str "1" from rfl,
      show parseJsonSafely (.str "1") = .num "1" from rfl] at h
    exact JsValue.noConfusion h
  · intro h
    have h2 := congrArg InsightsObj.case_priority_level h
    rw [show (normInsights (normInsights
          { case_priority_level := some (.str "\"1\"") })).case_priority_level
        = some (.num "1") from rfl,
      show (normInsights
          { case_priority_level := some (.str "\"1\"") }).case_priority_level
        = some (.str "1") from rfl] at h2
    exact Option.noConfusion h2 fun h3 => JsValue.noConfusion h3

/-- C4 (amended): normalization is idempotent on every payload none of
whose three optionally-stringified fields is doubly JSON-encoded (a string
whose parse is again a string that itself parses as JSON); on such a field
a second pass parses one level further. -/
theorem claim_C4 (io : InsightsObj)
    (h1 : doubleEncoded io.case_priority_level = false)
    (h2 : doubleEncoded io.sentiment = false)
    (h3 : doubleEncoded io.dialogue_history = false) :
    normInsights (normInsights io) = normInsights io := by
  cases io with
  | mk f1 f2 f3 f4 f5 f6 f7 =>
    simp only [normInsights] at *
    simp only [InsightsObj.mk.injEq, true_and, and_true]
    exact ⟨normField_idem _ h1, normField_idem _ h2, normField_idem _ h3⟩

/-- Witness for C4 (amended) on a payload with one singly-stringified field
and one already-structured field. -/
theorem claim_C4_witness :
    normInsights (normInsights
        { case_priority_level := some (.str "1"), sentiment := some (.bool true) })
      = normInsights
        { case_priority_level := some (.str "1"), sentiment := some (.bool true) } :=
  claim_C4 _ rfl rfl rfl

lemma parseJsonFields_cpl_fail (r : TextInsightResult)
    (h : jsonParse r.case_priority_level = none) :
    parseJsonFields r = ⟨none, none, none⟩ := by
  simp [parseJsonFields, h]

lemma parseJsonFields_sentiment_fail (r : TextInsightResult)
    (h : jsonParse r.sentiment = none) :
    parseJsonFields r = ⟨none, none, none⟩ := by
  rcases hcp : jsonParse r.case_priority_level with _ | p
  · simp [parseJsonFields, hcp]
  · simp [parseJsonFields, hcp, h]

lemma parseJsonFields_dialogue_fail (r : TextInsightResult)
    (h : jsonParse r.dialogue_history = none) :
    parseJsonFields r = ⟨none, none, none⟩ := by
  rcases hcp : jsonParse r.case_priority_level with _ | p
  · simp [parseJsonFields, hcp]
  · rcases hs : jsonParse r.sentiment with _ | s
    · simp [parseJsonFields, hcp, hs]
    · simp [parseJsonFields, hcp, hs, h]

/-- C5 counterexample: the cited normalizer `parseJsonFields`
(TextInsights.tsx 66-77) is not field-independent.  Two responses share
the same `sentiment` (the valid JSON text `2`) and differ only in
`case_priority_level`; when the latter is the non-JSON string `High`, the
single `try` block aborts and the sentiment outcome flips from parsed to
`null`: a parse failure on one field does change the outcome of another. -/
theorem claim_C5_counterexample :
    ({ case_priority_level := "High", sentiment := "2", dialogue_history := "3" }
        : TextInsightResult).sentiment
      = ({ case_priority_level := "1", sentiment := "2", dialogue_history := "3" }
        : TextInsightResult).sentiment
    ∧ (parseJsonFields
        { case_priority_level := "1", sentiment := "2", dialogue_history := "3" }).sentiment
      = some (.num "2")
    ∧ (parseJsonFields
        { case_priority_level := "High", sentiment := "2", dialogue_history := "3" }).sentiment
      = none :=
  ⟨rfl, rfl, rfl⟩

/-- C5 (amended): the `parseJsonSafely`-based pass of the audio
`handleSubmit` is field-independent — each normalized field is a function
of that field alone, and `case_priority_level = "High"` stays the string
`"High"` while the other two fields are normalized as usual — but
`parseJsonFields` of TextInsights is all-or-nothing: a parse failure on
any one of the three fields resets all three parsed values to `null`
(only the raw payload keeps its original strings). -/
theorem claim_C5 :
    (∀ io io2 : InsightsObj, io.case_priority_level = io2.case_priority_level →
      (normInsights io).case_priority_level = (normInsights io2).case_priority_level)
    ∧ (∀ io io2 : InsightsObj, io.sentiment = io2.sentiment →
      (normInsights io).sentiment = (normInsights io2).sentiment)
    ∧ (∀ io io2 : InsightsObj, io.dialogue_history = io2.dialogue_history →
      (normInsights io).dialogue_history = (normInsights io2).dialogue_history)
    ∧ (∀ io : InsightsObj, io.case_priority_level = some (.str "High") →
      (normInsights io).case_priority_level = some (.str "High")
      ∧ (normInsights io).sentiment = normField io.sentiment
      ∧ (normInsights io).dialogue_history = normField io.dialogue_history)
    ∧ (∀ r : TextInsightResult, jsonParse r.case_priority_level = none →
      parseJsonFields r = ⟨none, none, none⟩)
    ∧ (∀ r : TextInsightResult, jsonParse r.sentiment = none →
      parseJsonFields r = ⟨none, none, none⟩)
    ∧ (∀ r : TextInsightResult, jsonParse r.dialogue_history = none →
      parseJsonFields r = ⟨none, none, none⟩) :=
  ⟨fun io io2 h => by simp [normInsights, h],
    fun io io2 h => by simp [normInsights, h],
    fun io io2 h => by simp [normInsights, h],
    fun io h =>
      ⟨by show normField io.case_priority_level = some (.str "High"); rw [h]; rfl,
        rfl, rfl⟩,
    parseJsonFields_cpl_fail,
    parseJsonFields_sentiment_fail,
    parseJsonFields_dialogue_fail⟩

/-- Witness for C5: independence instantiated on two concrete payloads
sharing a sentiment, the `"High"` scenario, and the all-or-nothing
behavior on a failing dialogue field. -/
theorem claim_C5_witness :
    (normInsights { sentiment := some (.str "2") }).sentiment
      = (normInsights { case_priority_level := some (.str "oops"), sentiment := some (.str "2") }).sentiment
    ∧ (normInsights { case_priority_level := some (.str "High") }).case_priority_level
      = some (.str "High")
    ∧ parseJsonFields ⟨"", "1", "", "2", "", "", "x"⟩ = ⟨none, none, none⟩ :=
  ⟨claim_C5.2.1 _ _ rfl, (claim_C5.2.2.2.1 _ rfl).1, claim_C5.2.2.2.2.2.2 _ rfl⟩


/-- C6 counterexample: at a response whose `sentiment` is a JSON-encoded
string, what `setResult(res.data)` stores does *not* render as the
original unparsed body, and it never diverges from `processedResult`:
`{ ...res.data }` copies shallowly, so the three in-place parses mutate
the one insights object both records share. -/
theorem claim_C6_counterexample :
    (derefContent c6Out.store c6Out.stored).2
      = some { sentiment := some (.arr [.num "1"]) }
    ∧ (derefContent c6Out.store c6Out.stored).2 ≠ some c6Insights
    ∧ derefContent c6Out.store c6Out.stored
      = derefContent c6Out.store c6Out.processed := by
  refine ⟨rfl, ?_, rfl⟩
  intro h
  rw [show (derefContent c6Out.store c6Out.stored).2
      = some ({ sentiment := some (.arr [.num "1"]) } : InsightsObj) from rfl] at h
  injection h with h1
  have h2 := congrArg InsightsObj.sentiment h1
  injection h2 with h3
  exact JsValue.noConfusion h3

/-- C6 (amended): the record passed to `setResult` is `res.data` itself,
not `processedResult`; but because `{ ...res.data }` is a shallow copy,
the normalization pass mutates the insights object the two records share,
so the stored and rendered content is the *normalized* payload, and
`res.data` and `processedResult` never diverge in content. -/
theorem claim_C6 (top : GeminiTop) (ins : Option InsightsObj) :
    (audioHandleSuccess (mkResponse top ins).1 (mkResponse top ins).2).stored
      = (mkResponse top ins).2
    ∧ derefContent
        (audioHandleSuccess (mkResponse top ins).1 (mkResponse top ins).2).store
        (audioHandleSuccess (mkResponse top ins).1 (mkResponse top ins).2).stored
      = (top, Option.map normInsights ins)
    ∧ derefContent
        (audioHandleSuccess (mkResponse top ins).1 (mkResponse top ins).2).store
        (audioHandleSuccess (mkResponse top ins).1 (mkResponse top ins).2).stored
      = derefContent
        (audioHandleSuccess (mkResponse top ins).1 (mkResponse top ins).2).store
        (audioHandleSuccess (mkResponse top ins).1 (mkResponse top ins).2).processed := by
  cases ins with
  | none =>
    exact ⟨rfl, rfl, rfl⟩
  | some io =>
    refine ⟨rfl, ?_, rfl⟩
    simp [mkResponse, audioHandleSuccess, storeUpdate, storeGet, storeSet,
      derefContent, normInsights, List.get?, Option.bind]

/-- C7: the failed-call classification is decided in order — an HTTP
response (non-2xx) gives the server-error message carrying the server
`detail` (or, when absent or empty, the HTTP status text); a dispatched
request with no response (including the timeout case) gives exactly the
network-error message; anything else gives the client-side failure text
with the raw error message.  The three guard combinations are mutually
exclusive and exhaustive, and a timed-out request never produces a
server-error message. -/
theorem claim_C7 (p : String) :
    (∀ (e : AxiosErrorModel) (r : HttpResponseModel), e.response = some r →
      classifyError p e = "Server error: " ++ detailOrStatusText r)
    ∧ (∀ e : AxiosErrorModel, e.response = none → e.hasRequest = true →
      classifyError p e = networkErrorMsg)
    ∧ (∀ e : AxiosErrorModel, e.response = none → e.hasRequest = false →
      classifyError p e = p ++ e.message)
    ∧ (∀ (d : Option String) (st : String),
      classifyError p (axiosErrorOf (.serverResponded d st))
        = "Server error: " ++ detailOrStatusText ⟨d, st⟩)
    ∧ (∀ m : String, classifyError p (axiosErrorOf (.requestTimedOut m)) = networkErrorMsg)
    ∧ (∀ m : String, classifyError p (axiosErrorOf (.networkDown m)) = networkErrorMsg)
    ∧ (∀ m : String, classifyError p (axiosErrorOf (.clientSide m)) = p ++ m)
    ∧ (∀ m s : String,
      classifyError p (axiosErrorOf (.requestTimedOut m)) ≠ "Server error: " ++ s) := by
  refine ⟨fun e r h => by simp [classifyError, h],
    fun e h1 h2 => by simp [classifyError, h1, h2],
    fun e h1 h2 => by simp [classifyError, h1, h2],
    fun d st => rfl, fun m => rfl, fun m => rfl, fun m => rfl, ?_⟩
  intro m s h
  rw [show classifyError p (axiosErrorOf (.requestTimedOut m)) = networkErrorMsg
    from rfl] at h
  have h2 := congrArg (fun t : String => t.data.head?) h
  simp [networkErrorMsg, String.data_append] at h2

/-- Witness for C7: a concrete server error with a `detail` body, and a
concrete timed-out request classified as a network error. -/
theorem claim_C7_witness :
    classifyError "Analysis failed: "
        { response := some ⟨some "boom", "Bad Request"⟩, hasRequest := true, message := "" }
      = "Server error: boom"
    ∧ classifyError "Upload failed: "
        (axiosErrorOf (.requestTimedOut "timeout of 180000ms exceeded"))
      = networkErrorMsg :=
  ⟨by rw [(claim_C7 "Analysis failed: ").1 _ ⟨some "boom", "Bad Request"⟩ rfl]; rfl,
    (claim_C7 "Upload failed: ").2.2.2.2.1 "timeout of 180000ms exceeded"⟩

/-- C8: one `handleSubmit` run issues exactly one POST when the guard
passes (zero when the trimmed text is empty) and never retries; the POST
happens strictly between `setLoading(true)` and the `finally`'s
`setLoading(false)` (no POST occurs while `loading` is `false`), the run
ends with `loading` cleared, and the submit button is disabled whenever
`loading` is `true`. -/
theorem claim_C8 (text : String) (outcome : RequestOutcome) :
    countPosts (textSubmitTrace text outcome) = (if text.trim = "" then 0 else 1)
    ∧ postOutsideLoading false (textSubmitTrace text outcome) = false
    ∧ loadingAfter false (textSubmitTrace text outcome) = false
    ∧ (textSubmitTrace text outcome).getLast?
      = some (if text.trim = ""
          then .setErrorEv "Please enter some text to analyze."
          else .setLoadingEv false)
    ∧ (∀ t : String, submitDisabled true t = true) := by
  by_cases h : text.trim = ""
  · simp only [textSubmitTrace, if_pos h]
    exact ⟨rfl, rfl, rfl, rfl, fun t => rfl⟩
  · cases outcome <;> simp only [textSubmitTrace, if_neg h] <;>
      exact ⟨rfl, rfl, rfl, rfl, fun t => rfl⟩

/-- C9: in the diarization component an audio file larger than 100 MB is
rejected before any upload: `handleFileChange` only sets the error message
`File size must be less than 100MB`, the selected file is unchanged, and —
since `handleSubmit` posts exactly the file held in component state — no
POST carrying the rejected file can be issued. -/
theorem claim_C9 (st : DiarizationState) (f : JsFile)
    (htype : strStartsWith f.type "audio/" = true)
    (hsize : f.size > maxAudioSize) :
    handleFileChange st [f] = { st with error := "File size must be less than 100MB" }
    ∧ (handleFileChange st [f]).file = st.file
    ∧ ∀ outcome : RequestOutcome, st.file ≠ some f →
        DiarEvent.postFile f ∉ diarSubmitTrace (handleFileChange st [f]) outcome := by
  have hmain : handleFileChange st [f]
      = { st with error := "File size must be less than 100MB" } := by
    simp [handleFileChange, htype, hsize]
  refine ⟨hmain, by rw [hmain], ?_⟩
  intro outcome hne
  rw [hmain]
  rcases hf : st.file with _ | g
  · cases outcome <;> simp [diarSubmitTrace, hf]
  · have hfg : f ≠ g := fun hh => hne (by rw [hf, hh])
    cases outcome <;> simp [diarSubmitTrace, hf, hfg]

/-- Witness for C9: a 100MB-plus-one-byte audio file against the initial
state is rejected and its POST event is absent from a subsequent submit. -/
theorem claim_C9_witness :
    (handleFileChange {} [⟨"big.wav", "audio/wav", 104857601⟩]).file = none
    ∧ DiarEvent.postFile ⟨"big.wav", "audio/wav", 104857601⟩
      ∉ diarSubmitTrace (handleFileChange {} [⟨"big.wav", "audio/wav", 104857601⟩])
          .success :=
  ⟨(claim_C9 {} ⟨"big.wav", "audio/wav", 104857601⟩ (by decide) (by decide)).2.1,
    (claim_C9 {} ⟨"big.wav", "audio/wav", 104857601⟩ (by decide) (by decide)).2.2
      .success (fun h => Option.noConfusion h)⟩

/-- C10: when a candidate file fails validation in `handleFileChange`
(non-`audio/*` type, or size above 100 MB), only the error message
changes: the previous file, result, audio preview URL, playback position,
playing flag, loading flag and duration are all untouched. -/
theorem claim_C10 (st : DiarizationState) (f : JsFile)
    (h : strStartsWith f.type "audio/" = false ∨ f.size > maxAudioSize) :
    (handleFileChange st [f]).file = st.file
    ∧ (handleFileChange st [f]).result = st.result
    ∧ (handleFileChange st [f]).audioUrl = st.audioUrl
    ∧ (handleFileChange st [f]).currentTime = st.currentTime
    ∧ (handleFileChange st [f]).isPlaying = st.isPlaying
    ∧ (handleFileChange st [f]).loading = st.loading
    ∧ (handleFileChange st [f]).duration = st.duration
    ∧ (handleFileChange st [f]).error
      = (if strStartsWith f.type "audio/"
          then "File size must be less than 100MB"
          else "Please select a valid audio file (WAV, MP3, etc.)") := by
  by_cases ht : strStartsWith f.type "audio/" = true
  · have hsize : f.size > maxAudioSize := by
      rcases h with h1 | h1
      · rw [ht] at h1; exact absurd h1 (by simp)
      · exact h1
    have heq : handleFileChange st [f]
        = { st with error := "File size must be less than 100MB" } := by
      simp [handleFileChange, ht, hsize]
    rw [heq]; simp [ht]
  · have ht' : strStartsWith f.type "audio/" = false := by
      simpa using ht
    have heq : handleFileChange st [f]
        = { st with error := "Please select a valid audio file (WAV, MP3, etc.)" } := by
      simp [handleFileChange, ht']
    rw [heq]; simp [ht']

/-- Witness for C10: a non-audio file against the initial state changes
only the error message. -/
theorem claim_C10_witness :
    (handleFileChange {} [⟨"x.txt", "text/plain", 5⟩]).result = none
    ∧ (handleFileChange {} [⟨"x.txt", "text/plain", 5⟩]).error
      = "Please select a valid audio file (WAV, MP3, etc.)" :=
  ⟨(claim_C10 {} ⟨"x.txt", "text/plain", 5⟩ (Or.inl rfl)).2.1,
    by rw [(claim_C10 {} ⟨"x.txt", "text/plain", 5⟩ (Or.inl rfl)).2.2.2.2.2.2.2]; rfl⟩
